import Mathlib

/-!
Shallow embedding of the savings-computation engine of the
`electricity_savings_calculator` repository:
`src/analysis/savings_calculator.py` (alignment, energy-cost savings,
demand-charge savings, other savings, total savings, percentage metrics)
and the monthly-summary slicing of
`src/data_ingestion/battery_data.py` / `src/data_ingestion/market_data.py`.

Timestamps are modelled as naturals, numeric values as rationals.
`Option ℚ` models a float that may be NaN (`none`), which pandas
reductions produce on empty series; arithmetic propagates NaN and any
ordered comparison against NaN is false, as in IEEE semantics.
Python `KeyError` from dict access is modelled with `Except PyError`.
-/

deriving instance DecidableEq for Except

namespace SavingsCalc

/-- A timestamp-indexed pandas Series: ordered (timestamp, value) pairs. -/
abbrev Series := List (Nat × ℚ)

/-- The timestamp axis (index) of a series. -/
def tsOf (s : Series) : List Nat := s.map Prod.fst

/-- pandas `Index.intersection`: the elements of `a` that also occur in `b`,
in the order of `a` (for sorted unique inputs this is the sorted intersection,
as pandas returns). -/
def idxInter (a b : List Nat) : List Nat := a.filter (fun t => decide (t ∈ b))

/-- Label lookup in a series (first occurrence of the timestamp). -/
def lookupVal : Series → Nat → Option ℚ
  | [], _ => none
  | (t, v) :: s, u => if u = t then some v else lookupVal s u

/-- pandas `series[idx]`: select the rows labelled by `idx`, in the order of
`idx`.  Labels absent from the series contribute nothing (in the engine `idx`
is always a subset of the series index). -/
def restrict (s : Series) (idx : List Nat) : Series :=
  idx.filterMap (fun t => (lookupVal s t).map (fun v => (t, v)))

/-- `common_index = charge.index.intersection(discharge.index).intersection(price.index)`
(savings_calculator.py line 88). -/
def commonIndex (charge discharge price : Series) : List Nat :=
  idxInter (idxInter (tsOf charge) (tsOf discharge)) (tsOf price)

/-- pandas elementwise product `a * b` of two identically-indexed series
(the engine only multiplies series after restricting both to the same index). -/
def seriesMul : Series → Series → Series
  | (t, v) :: xs, (_, w) :: ys => (t, v * w) :: seriesMul xs ys
  | _, _ => []

/-- pandas `.sum()`: the sum of the values; an empty series sums to 0. -/
def sumVals (s : Series) : ℚ := (s.map Prod.snd).sum

/-- pandas `.max()`: `none` models the NaN returned on an empty series. -/
def maxVals : Series → Option ℚ
  | [] => none
  | (_, v) :: s =>
    match maxVals s with
    | none => some v
    | some m => some (max v m)

/-- pandas `.mean()` of a non-empty series (sum divided by length). -/
def meanVals (s : Series) : ℚ := sumVals s / (s.length : ℚ)

/-- A float value that may be NaN (`none`). -/
abbrev PVal := Option ℚ

/-- Float addition; NaN propagates. -/
def pAdd : PVal → PVal → PVal
  | some a, some b => some (a + b)
  | _, _ => none

/-- Float subtraction; NaN propagates. -/
def pSub : PVal → PVal → PVal
  | some a, some b => some (a - b)
  | _, _ => none

/-- Float multiplication; NaN propagates (IEEE: `NaN * x = NaN`, even for `x = 0`). -/
def pMul : PVal → PVal → PVal
  | some a, some b => some (a * b)
  | _, _ => none

/-- The comparison `x > 0`; any comparison against NaN is false. -/
def pPos : PVal → Bool
  | some a => decide (0 < a)
  | none => false

/-- A Python error condition raised by the engine: dict access on a missing key. -/
inductive PyError where
  | keyError (key : String)
deriving DecidableEq, Repr

/-- A rate dict as produced by the tariff parser: `none` models an absent key.
Accessing an absent key (`rate['type']`, `rate['value']`) raises `KeyError`. -/
structure RateDict where
  type : Option String
  value : Option ℚ
deriving DecidableEq, Repr

/-- A time-period dict.  The engine passes `time_periods` through untouched and
never reads any field, so a generic string dict suffices. -/
abbrev PeriodDict := List (String × String)

/-- `next((rate['value'] for rate in rates if rate['type'] == 'demand_peak'), 0)`
(savings_calculator.py line 147): scan the rates in declared order; dict access
to a missing `type` key raises `KeyError('type')`; the first rate whose type is
`demand_peak` yields its `value` (missing `value` raises `KeyError('value')`);
default 0 when the generator is exhausted. -/
def peakRateLookup : List RateDict → Except PyError ℚ
  | [] => .ok 0
  | r :: rs =>
    match r.type with
    | none => .error (.keyError "type")
    | some t =>
      if t = "demand_peak" then
        match r.value with
        | none => .error (.keyError "value")
        | some v => .ok v
      else peakRateLookup rs

/-- `_calculate_energy_cost_savings` (savings_calculator.py lines 127-140):
`(discharge_data * price_data).sum() - (charge_data * price_data).sum()`.
The `rates` and `time_periods` arguments are accepted and ignored, as in the
source. -/
def calcEnergyCostSavings (charge discharge price : Series)
    (rates : List RateDict) (periods : List PeriodDict) : ℚ :=
  sumVals (seriesMul discharge price) - sumVals (seriesMul charge price)

/-- `_calculate_demand_charge_savings` (savings_calculator.py lines 142-155):
look up the demand-peak rate, take `peak_without_battery = discharge_data.max()`,
`peak_with_battery = peak_without_battery * 0.8`, and return
`(peak_without_battery - peak_with_battery) * peak_rate`.  On an empty series
`max()` is NaN and the NaN propagates through the arithmetic. -/
def calcDemandChargeSavings (discharge : Series) (rates : List RateDict) :
    Except PyError PVal :=
  match peakRateLookup rates with
  | .error e => .error e
  | .ok peakRate =>
    let peakWithout := maxVals discharge
    let peakWith := pMul peakWithout (some (8 / 10))
    .ok (pMul (pSub peakWithout peakWith) (some peakRate))

/-- `_calculate_other_savings` (savings_calculator.py lines 157-163): a fixed 0. -/
def calcOtherSavings (discharge : Series) (rates : List RateDict) : ℚ := 0

/-- The value part of the dict returned by `_calculate_savings_breakdown`
(savings_calculator.py lines 118-125). -/
structure Breakdown where
  energy_cost_savings : ℚ
  demand_charge_savings : PVal
  other_savings : ℚ
  total_savings : PVal
  energy_cost_reduction : ℚ
  peak_demand_reduction : ℚ
deriving DecidableEq, Repr

/-- The literal key strings of the dict returned by
`_calculate_savings_breakdown` (savings_calculator.py lines 118-125). -/
def breakdownDictKeys : List String :=
  ["energy_cost_savings", "demand_charge_savings", "other_savings",
   "total_savings", "energy_cost_reduction", "peak_demand_reduction"]

/-- `_calculate_savings_breakdown` (savings_calculator.py lines 68-125):
align the three series on their common index, compute the three savings
components, their plain sum, and the two guarded percentage metrics. -/
def calcSavingsBreakdown (charge discharge price : Series)
    (rates : List RateDict) (periods : List PeriodDict) :
    Except PyError Breakdown :=
  let common := commonIndex charge discharge price
  let c := restrict charge common
  let d := restrict discharge common
  let p := restrict price common
  let ecs := calcEnergyCostSavings c d p rates periods
  match calcDemandChargeSavings d rates with
  | .error e => .error e
  | .ok dcs =>
    let os := calcOtherSavings d rates
    let total := pAdd (pAdd (some ecs) dcs) (some os)
    let tec := sumVals (seriesMul c p)
    let ecr := if 0 < tec then ecs / tec * 100 else 0
    let peak := maxVals d
    let pdr := if pPos peak then peak.getD 0 / (peak.getD 0 + meanVals d) * 100 else 0
    .ok { energy_cost_savings := ecs
          demand_charge_savings := dcs
          other_savings := os
          total_savings := total
          energy_cost_reduction := ecr
          peak_demand_reduction := pdr }

/-- A Python `datetime` value, to second precision (the engine never sets
microseconds to anything but 0). -/
structure PyDateTime where
  year : Nat
  month : Nat
  day : Nat
  hour : Nat
  minute : Nat
  second : Nat
deriving DecidableEq, Repr

/-- Chronological `≤` on datetimes (lexicographic on the components). -/
def PyDateTime.leb (a b : PyDateTime) : Bool :=
  if a.year ≠ b.year then decide (a.year < b.year)
  else if a.month ≠ b.month then decide (a.month < b.month)
  else if a.day ≠ b.day then decide (a.day < b.day)
  else if a.hour ≠ b.hour then decide (a.hour < b.hour)
  else if a.minute ≠ b.minute then decide (a.minute < b.minute)
  else decide (a.second ≤ b.second)

/-- `month.replace(day=1, hour=0, minute=0, second=0, microsecond=0)`
(battery_data.py line 94, market_data.py line 72). -/
def monthStart (m : PyDateTime) : PyDateTime :=
  { m with day := 1, hour := 0, minute := 0, second := 0 }

/-- The end boundary of the monthly slice (battery_data.py lines 95-98,
market_data.py lines 73-76): first day of the next month at 00:00:00, with the
December-to-January year rollover. -/
def monthEnd (m : PyDateTime) : PyDateTime :=
  if m.month = 12 then ⟨m.year + 1, 1, 1, 0, 0, 0⟩
  else ⟨m.year, m.month + 1, 1, 0, 0, 0⟩

/-- One float column of a datetime-indexed DataFrame. -/
abbrev DataFrameCol := List (PyDateTime × ℚ)

/-- `month_data = self.data[month_start:month_end]` (battery_data.py line 100,
market_data.py line 78): pandas label-based slicing on a sorted DatetimeIndex,
which is inclusive of BOTH endpoints. -/
def monthSlice (data : DataFrameCol) (m : PyDateTime) : DataFrameCol :=
  data.filter (fun p => (monthStart m).leb p.1 && p.1.leb (monthEnd m))

/-- `month_data['charge_power'].sum()` of `get_monthly_summary`
(battery_data.py line 103), applied to the charge-power column. -/
def monthlyTotalCharge (data : DataFrameCol) (m : PyDateTime) : ℚ :=
  ((monthSlice data m).map Prod.snd).sum

/-- Spec-side transcription of claim C4's selection rule (clearly spec-derived,
for comparison with `peakRateLookup` from the source): the value of the first
rate in declared list order whose type equals `demand_peak`, or 0 when no such
rate exists. -/
def specFirstDemandPeakRate (rates : List RateDict) : ℚ :=
  match rates.find? (fun r => decide (r.type = some "demand_peak")) with
  | some r => r.value.getD 0
  | none => 0

/-- The sum of an empty series is 0. -/
theorem sumVals_nil : sumVals [] = 0 := rfl

/-- Unfolding lemma for `sumVals` on a cons cell. -/
theorem sumVals_cons (t : Nat) (v : ℚ) (s : Series) :
    sumVals ((t, v) :: s) = v + sumVals s := by
  simp [sumVals]

/-- The summed elementwise product of two equal-length series, written as an
indexed sum over positions. -/
theorem sumVals_seriesMul (a b : Series) (h : a.length = b.length) :
    sumVals (seriesMul a b) =
      ∑ i in Finset.range b.length, (a.getD i (0, 0)).2 * (b.getD i (0, 0)).2 := by
  induction a generalizing b with
  | nil =>
    cases b with
    | nil => simp [seriesMul, sumVals]
    | cons y ys => simp at h
  | cons x xs ih =>
    cases b with
    | nil => simp at h
    | cons y ys =>
      obtain ⟨t, v⟩ := x
      obtain ⟨u, w⟩ := y
      have hlen : xs.length = ys.length := by simpa using h
      show sumVals ((t, v * w) :: seriesMul xs ys) = _
      rw [sumVals_cons, ih ys hlen]
      simp only [List.length_cons]
      rw [Finset.sum_range_succ']
      simp only [List.getD_cons_succ, List.getD_cons_zero]
      ring

/-- Claim C1: for every aligned window (three equal-length sequences charge,
discharge, price over a common timestamp axis), the engine's energy-cost
savings equals the sum over i of `discharge[i] * price[i]` minus the sum over
i of `charge[i] * price[i]`. -/
theorem energy_cost_savings_spec (charge discharge price : Series)
    (rates : List RateDict) (periods : List PeriodDict)
    (hc : charge.length = price.length) (hd : discharge.length = price.length) :
    calcEnergyCostSavings charge discharge price rates periods =
      (∑ i in Finset.range price.length,
        (discharge.getD i (0, 0)).2 * (price.getD i (0, 0)).2) -
      ∑ i in Finset.range price.length,
        (charge.getD i (0, 0)).2 * (price.getD i (0, 0)).2 := by
  unfold calcEnergyCostSavings
  rw [sumVals_seriesMul discharge price hd, sumVals_seriesMul charge price hc]

/-- Witness for claim C1's theorem at a concrete two-point window. -/
theorem energy_cost_savings_spec_witness :
    calcEnergyCostSavings [((0:ℕ), (1:ℚ)), (1, 2)] [(0, 3), (1, 4)] [(0, 5), (1, 6)] [] [] =
      (∑ i in Finset.range 2,
        (([((0:ℕ), (3:ℚ)), (1, 4)].getD i (0, 0)).2 * ([((0:ℕ), (5:ℚ)), (1, 6)].getD i (0, 0)).2)) -
      ∑ i in Finset.range 2,
        (([((0:ℕ), (1:ℚ)), (1, 2)].getD i (0, 0)).2 * ([((0:ℕ), (5:ℚ)), (1, 6)].getD i (0, 0)).2) :=
  energy_cost_savings_spec _ _ _ [] [] rfl rfl


/-- Membership in an index intersection. -/
theorem mem_idxInter {t : Nat} {a b : List Nat} : t ∈ idxInter a b ↔ t ∈ a ∧ t ∈ b := by
  simp [idxInter]

/-- Label lookup succeeds for every timestamp present in the series. -/
theorem lookupVal_isSome {s : Series} {t : Nat} (h : t ∈ tsOf s) :
    ∃ v, lookupVal s t = some v := by
  induction s with
  | nil => simp [tsOf] at h
  | cons x xs ih =>
    obtain ⟨u, v⟩ := x
    by_cases ht : t = u
    · exact ⟨v, by simp [lookupVal, ht]⟩
    · have hm : t ∈ tsOf xs := by
        rcases (by simpa [tsOf] using h : t = u ∨ t ∈ tsOf xs) with h1 | h1
        · exact absurd h1 ht
        · exact h1
      obtain ⟨w, hw⟩ := ih hm
      exact ⟨w, by simp [lookupVal, ht, hw]⟩

/-- Unfolding lemma for `restrict` when the head label is present. -/
theorem restrict_cons {s : Series} {t : Nat} {v : ℚ} {ts : List Nat}
    (hv : lookupVal s t = some v) :
    restrict s (t :: ts) = (t, v) :: restrict s ts := by
  simp [restrict, List.filterMap_cons, hv]

/-- Restricting a series to a list of labels it contains reproduces exactly
that label list as the new index. -/
theorem tsOf_restrict {s : Series} {idx : List Nat} (h : ∀ t ∈ idx, t ∈ tsOf s) :
    tsOf (restrict s idx) = idx := by
  induction idx with
  | nil => rfl
  | cons t ts ih =>
    obtain ⟨v, hv⟩ := lookupVal_isSome (h t (by simp))
    rw [restrict_cons hv]
    have hrest := ih (fun u hu => h u (by simp [hu]))
    simpa [tsOf] using hrest

/-- Restricting to a contained label list yields one row per label. -/
theorem restrict_length {s : Series} {idx : List Nat} (h : ∀ t ∈ idx, t ∈ tsOf s) :
    (restrict s idx).length = idx.length := by
  have h2 := congrArg List.length (tsOf_restrict h)
  simpa [tsOf] using h2

/-- Intersecting preserves strict ascending order of the left index. -/
theorem sorted_idxInter {a b : List Nat} (h : List.Sorted (· < ·) a) :
    List.Sorted (· < ·) (idxInter a b) :=
  List.Pairwise.filter _ h

/-- A timestamp lies in the common index exactly when it lies in all three
input indexes. -/
theorem mem_commonIndex {t : Nat} {charge discharge price : Series} :
    t ∈ commonIndex charge discharge price ↔
      t ∈ tsOf charge ∧ t ∈ tsOf discharge ∧ t ∈ tsOf price := by
  simp [commonIndex, mem_idxInter, and_assoc]

/-- Claim C2: for any three input series with sorted duplicate-free timestamp
sets A, B, C, the alignment step restricts each of the three series to exactly
the timestamp set A ∩ B ∩ C, the three restricted series have equal length,
and their shared timestamp axis is in ascending order. -/
theorem alignment_spec (charge discharge price : Series)
    (hc : List.Sorted (· < ·) (tsOf charge))
    (hd : List.Sorted (· < ·) (tsOf discharge))
    (hp : List.Sorted (· < ·) (tsOf price)) :
    (commonIndex charge discharge price).toFinset =
      (tsOf charge).toFinset ∩ (tsOf discharge).toFinset ∩ (tsOf price).toFinset ∧
    tsOf (restrict charge (commonIndex charge discharge price)) =
      commonIndex charge discharge price ∧
    tsOf (restrict discharge (commonIndex charge discharge price)) =
      commonIndex charge discharge price ∧
    tsOf (restrict price (commonIndex charge discharge price)) =
      commonIndex charge discharge price ∧
    (restrict charge (commonIndex charge discharge price)).length =
      (commonIndex charge discharge price).length ∧
    (restrict discharge (commonIndex charge discharge price)).length =
      (commonIndex charge discharge price).length ∧
    (restrict price (commonIndex charge discharge price)).length =
      (commonIndex charge discharge price).length ∧
    List.Sorted (· < ·) (commonIndex charge discharge price) := by
  refine ⟨?_, ?_, ?_, ?_, ?_, ?_, ?_, ?_⟩
  · ext t
    simp [List.mem_toFinset, mem_commonIndex, and_assoc]
  · exact tsOf_restrict (fun t ht => (mem_commonIndex.mp ht).1)
  · exact tsOf_restrict (fun t ht => (mem_commonIndex.mp ht).2.1)
  · exact tsOf_restrict (fun t ht => (mem_commonIndex.mp ht).2.2)
  · exact restrict_length (fun t ht => (mem_commonIndex.mp ht).1)
  · exact restrict_length (fun t ht => (mem_commonIndex.mp ht).2.1)
  · exact restrict_length (fun t ht => (mem_commonIndex.mp ht).2.2)
  · exact sorted_idxInter (sorted_idxInter hc)


/-- Witness for claim C2's theorem at three concrete overlapping series. -/
theorem alignment_spec_witness :
    (commonIndex [((0:ℕ), (1:ℚ)), (2, 1), (4, 1)] [(0, 2), (2, 2)] [(2, 3), (4, 3)]).toFinset =
      (tsOf [((0:ℕ), (1:ℚ)), (2, 1), (4, 1)]).toFinset ∩
        (tsOf [((0:ℕ), (2:ℚ)), (2, 2)]).toFinset ∩ (tsOf [((2:ℕ), (3:ℚ)), (4, 3)]).toFinset ∧
    tsOf (restrict [((0:ℕ), (1:ℚ)), (2, 1), (4, 1)]
        (commonIndex [((0:ℕ), (1:ℚ)), (2, 1), (4, 1)] [(0, 2), (2, 2)] [(2, 3), (4, 3)])) =
      commonIndex [((0:ℕ), (1:ℚ)), (2, 1), (4, 1)] [(0, 2), (2, 2)] [(2, 3), (4, 3)] ∧
    tsOf (restrict [((0:ℕ), (2:ℚ)), (2, 2)]
        (commonIndex [((0:ℕ), (1:ℚ)), (2, 1), (4, 1)] [(0, 2), (2, 2)] [(2, 3), (4, 3)])) =
      commonIndex [((0:ℕ), (1:ℚ)), (2, 1), (4, 1)] [(0, 2), (2, 2)] [(2, 3), (4, 3)] ∧
    tsOf (restrict [((2:ℕ), (3:ℚ)), (4, 3)]
        (commonIndex [((0:ℕ), (1:ℚ)), (2, 1), (4, 1)] [(0, 2), (2, 2)] [(2, 3), (4, 3)])) =
      commonIndex [((0:ℕ), (1:ℚ)), (2, 1), (4, 1)] [(0, 2), (2, 2)] [(2, 3), (4, 3)] ∧
    (restrict [((0:ℕ), (1:ℚ)), (2, 1), (4, 1)]
        (commonIndex [((0:ℕ), (1:ℚ)), (2, 1), (4, 1)] [(0, 2), (2, 2)] [(2, 3), (4, 3)])).length =
      (commonIndex [((0:ℕ), (1:ℚ)), (2, 1), (4, 1)] [(0, 2), (2, 2)] [(2, 3), (4, 3)]).length ∧
    (restrict [((0:ℕ), (2:ℚ)), (2, 2)]
        (commonIndex [((0:ℕ), (1:ℚ)), (2, 1), (4, 1)] [(0, 2), (2, 2)] [(2, 3), (4, 3)])).length =
      (commonIndex [((0:ℕ), (1:ℚ)), (2, 1), (4, 1)] [(0, 2), (2, 2)] [(2, 3), (4, 3)]).length ∧
    (restrict [((2:ℕ), (3:ℚ)), (4, 3)]
        (commonIndex [((0:ℕ), (1:ℚ)), (2, 1), (4, 1)] [(0, 2), (2, 2)] [(2, 3), (4, 3)])).length =
      (commonIndex [((0:ℕ), (1:ℚ)), (2, 1), (4, 1)] [(0, 2), (2, 2)] [(2, 3), (4, 3)]).length ∧
    List.Sorted (· < ·)
      (commonIndex [((0:ℕ), (1:ℚ)), (2, 1), (4, 1)] [(0, 2), (2, 2)] [(2, 3), (4, 3)]) :=
  alignment_spec [(0, 1), (2, 1), (4, 1)] [(0, 2), (2, 2)] [(2, 3), (4, 3)]
    (by decide) (by decide) (by decide)


/-- Claim C3: for every breakdown computed by the engine, `total_savings` is
exactly the plain (float) sum
`energy_cost_savings + demand_charge_savings + other_savings`, and
`other_savings` is always exactly 0. -/
theorem breakdown_additivity (charge discharge price : Series)
    (rates : List RateDict) (periods : List PeriodDict) (b : Breakdown)
    (h : calcSavingsBreakdown charge discharge price rates periods = .ok b) :
    b.total_savings =
      pAdd (pAdd (some b.energy_cost_savings) b.demand_charge_savings) (some b.other_savings) ∧
    b.other_savings = 0 := by
  simp only [calcSavingsBreakdown] at h
  split at h
  · exact absurd h (by simp)
  · rw [Except.ok.injEq] at h
    subst h
    exact ⟨rfl, rfl⟩

/-- Witness for claim C3's theorem on a concrete successful breakdown. -/
theorem breakdown_additivity_witness :
    Breakdown.total_savings
        { energy_cost_savings := 0, demand_charge_savings := some 0, other_savings := 0,
          total_savings := some 0, energy_cost_reduction := 0, peak_demand_reduction := 50 } =
      pAdd (pAdd (some (Breakdown.energy_cost_savings
        { energy_cost_savings := 0, demand_charge_savings := some 0, other_savings := 0,
          total_savings := some 0, energy_cost_reduction := 0, peak_demand_reduction := 50 }))
        (Breakdown.demand_charge_savings
        { energy_cost_savings := 0, demand_charge_savings := some 0, other_savings := 0,
          total_savings := some 0, energy_cost_reduction := 0, peak_demand_reduction := 50 }))
        (some (Breakdown.other_savings
        { energy_cost_savings := 0, demand_charge_savings := some 0, other_savings := 0,
          total_savings := some 0, energy_cost_reduction := 0, peak_demand_reduction := 50 })) ∧
    Breakdown.other_savings
        { energy_cost_savings := 0, demand_charge_savings := some 0, other_savings := 0,
          total_savings := some 0, energy_cost_reduction := 0, peak_demand_reduction := 50 } = 0 :=
  breakdown_additivity [(0, 1)] [(0, 1)] [(0, 1)] [] [] _ (by with_unfolding_all rfl)

/-- On shape-valid rate lists (every entry carries both keys) the source's
first-match generator agrees with the declarative first-demand-peak rule. -/
theorem peakRateLookup_wellFormed (rates : List RateDict)
    (hwf : ∀ r ∈ rates, r.type.isSome ∧ r.value.isSome) :
    peakRateLookup rates = .ok (specFirstDemandPeakRate rates) := by
  induction rates with
  | nil => rfl
  | cons r rs ih =>
    obtain ⟨ht, hv⟩ := hwf r (by simp)
    obtain ⟨t, ht2⟩ := Option.isSome_iff_exists.mp ht
    obtain ⟨v, hv2⟩ := Option.isSome_iff_exists.mp hv
    by_cases hdp : t = "demand_peak"
    · subst hdp
      have h1 : peakRateLookup (r :: rs) = .ok v := by
        simp [peakRateLookup, ht2, hv2]
      have h2 : specFirstDemandPeakRate (r :: rs) = v := by
        simp [specFirstDemandPeakRate, List.find?_cons, ht2, hv2]
      rw [h1, h2]
    · have h1 : peakRateLookup (r :: rs) = peakRateLookup rs := by
        simp [peakRateLookup, ht2, hdp]
      have h2 : specFirstDemandPeakRate (r :: rs) = specFirstDemandPeakRate rs := by
        simp [specFirstDemandPeakRate, List.find?_cons, ht2, hdp]
      rw [h1, h2]
      exact ih (fun q hq => hwf q (by simp [hq]))
/-- The maximum of a non-empty series is an actual number, never NaN. -/
theorem maxVals_cons_isSome (x : Nat × ℚ) (s : Series) : ∃ m, maxVals (x :: s) = some m := by
  obtain ⟨t, v⟩ := x
  cases hs : maxVals s with
  | none => exact ⟨v, by simp [maxVals, hs]⟩
  | some m => exact ⟨max v m, by simp [maxVals, hs]⟩

/-- Claim C4: for every non-empty discharge sequence and every shape-valid
rate list, demand-charge savings equals
`(peak_without - peak_without * 0.8) * r` where `peak_without` is the maximum
discharge and `r` is the first `demand_peak` rate in declared order (0 when no
such rate exists). -/
theorem demand_charge_savings_spec (discharge : Series) (rates : List RateDict)
    (hne : discharge ≠ [])
    (hwf : ∀ r ∈ rates, r.type.isSome ∧ r.value.isSome) :
    calcDemandChargeSavings discharge rates =
      .ok (some (((maxVals discharge).getD 0 - (maxVals discharge).getD 0 * (8 / 10)) *
        specFirstDemandPeakRate rates)) := by
  cases discharge with
  | nil => exact absurd rfl hne
  | cons x s =>
    obtain ⟨m, hm⟩ := maxVals_cons_isSome x s
    unfold calcDemandChargeSavings
    rw [peakRateLookup_wellFormed rates hwf]
    simp [hm, pMul, pSub]

/-- Witness for claim C4's theorem at a concrete discharge series and rate list. -/
theorem demand_charge_savings_spec_witness :
    calcDemandChargeSavings [((0:ℕ), (10:ℚ))] [⟨some "demand_peak", some 5⟩] =
      .ok (some (((maxVals [((0:ℕ), (10:ℚ))]).getD 0 -
          (maxVals [((0:ℕ), (10:ℚ))]).getD 0 * (8 / 10)) *
        specFirstDemandPeakRate [⟨some "demand_peak", some 5⟩])) :=
  demand_charge_savings_spec [(0, 10)] [⟨some "demand_peak", some 5⟩]
    (by decide) (by decide)


/-- Intersecting with a superset is the identity. -/
theorem idxInter_of_subset {a b : List Nat} (h : ∀ t ∈ a, t ∈ b) : idxInter a b = a := by
  rw [idxInter, List.filter_eq_self]
  intro t ht
  exact decide_eq_true (h t ht)

/-- When the three series already share one timestamp axis, the common index
is that axis. -/
theorem commonIndex_of_eq {charge discharge price : Series}
    (hcd : tsOf charge = tsOf discharge) (hdp : tsOf discharge = tsOf price) :
    commonIndex charge discharge price = tsOf charge := by
  have h1 : idxInter (tsOf charge) (tsOf discharge) = tsOf charge :=
    idxInter_of_subset (fun t ht => hcd ▸ ht)
  have h2 : idxInter (tsOf charge) (tsOf price) = tsOf charge :=
    idxInter_of_subset (fun t ht => (hcd.trans hdp) ▸ ht)
  rw [commonIndex, h1, h2]

/-- `filterMap` only depends on the function's values on the list. -/
theorem filterMap_congr_on {α β : Type} {l : List α} {f g : α → Option β}
    (h : ∀ a ∈ l, f a = g a) : l.filterMap f = l.filterMap g := by
  induction l with
  | nil => rfl
  | cons x xs ih =>
    rw [List.filterMap_cons, List.filterMap_cons, h x (by simp),
      ih (fun a ha => h a (by simp [ha]))]

/-- Restricting a duplicate-free series to its own index is the identity. -/
theorem restrict_tsOf_self {s : Series} (h : (tsOf s).Nodup) : restrict s (tsOf s) = s := by
  induction s with
  | nil => rfl
  | cons x s2 ih =>
    obtain ⟨t, v⟩ := x
    have hts : tsOf ((t, v) :: s2) = t :: tsOf s2 := rfl
    rw [hts] at h ⊢
    have hnotmem : t ∉ tsOf s2 := (List.nodup_cons.mp h).1
    have hnd2 : (tsOf s2).Nodup := (List.nodup_cons.mp h).2
    have hlook : lookupVal ((t, v) :: s2) t = some v := by simp [lookupVal]
    rw [restrict_cons hlook]
    congr 1
    have hcongr : ∀ u ∈ tsOf s2,
        (lookupVal ((t, v) :: s2) u).map (fun w => (u, w)) =
        (lookupVal s2 u).map (fun w => (u, w)) := by
      intro u hu
      have : u ≠ t := fun he => hnotmem (he ▸ hu)
      simp [lookupVal, this]
    rw [restrict, filterMap_congr_on hcongr]
    exact ih hnd2

/-- A product series with an all-zero left factor sums to 0. -/
theorem sumVals_seriesMul_left_zero :
    ∀ (a b : Series), (∀ x ∈ a, x.2 = 0) → sumVals (seriesMul a b) = 0 := by
  intro a
  induction a with
  | nil => intro b _; rfl
  | cons x xs ih =>
    intro b hz
    cases b with
    | nil => rfl
    | cons y ys =>
      obtain ⟨t, v⟩ := x
      obtain ⟨u, w⟩ := y
      have hv : v = 0 := hz (t, v) (by simp)
      show sumVals ((t, v * w) :: seriesMul xs ys) = 0
      rw [sumVals_cons, hv, zero_mul, ih ys (fun q hq => hz q (by simp [hq])), add_zero]

/-- Claim C5: the two percentage metrics are computed exactly by the
specified formulas with zero-guards: `energy_cost_reduction` is
`energy_cost_savings / sum(charge[i] * price[i]) * 100` when that denominator
is positive and 0 otherwise (in particular 0 when every charge value is 0,
with no exception and no NaN), and `peak_demand_reduction` is
`peak / (peak + mean(discharge)) * 100` when `peak = max(discharge) > 0`,
else 0. -/
theorem percentage_metrics_spec (charge discharge price : Series)
    (rates : List RateDict) (periods : List PeriodDict) (b : Breakdown)
    (hcd : tsOf charge = tsOf discharge) (hdp : tsOf discharge = tsOf price)
    (hnd : (tsOf charge).Nodup)
    (h : calcSavingsBreakdown charge discharge price rates periods = .ok b) :
    (b.energy_cost_reduction =
      if 0 < sumVals (seriesMul charge price)
      then b.energy_cost_savings / sumVals (seriesMul charge price) * 100 else 0) ∧
    ((∀ x ∈ charge, x.2 = 0) → b.energy_cost_reduction = 0) ∧
    (b.peak_demand_reduction =
      if pPos (maxVals discharge)
      then (maxVals discharge).getD 0 /
        ((maxVals discharge).getD 0 + meanVals discharge) * 100
      else 0) := by
  have hci : commonIndex charge discharge price = tsOf charge := commonIndex_of_eq hcd hdp
  have hrc : restrict charge (commonIndex charge discharge price) = charge := by
    rw [hci]; exact restrict_tsOf_self hnd
  have hrd : restrict discharge (commonIndex charge discharge price) = discharge := by
    rw [hci, hcd]; exact restrict_tsOf_self (hcd ▸ hnd)
  have hrp : restrict price (commonIndex charge discharge price) = price := by
    rw [hci, hcd, hdp]; exact restrict_tsOf_self ((hcd.trans hdp) ▸ hnd)
  simp only [calcSavingsBreakdown] at h
  rw [hrc, hrd, hrp] at h
  split at h
  · exact absurd h (by simp)
  · rw [Except.ok.injEq] at h
    subst h
    refine ⟨rfl, ?_, rfl⟩
    intro hz
    have h0 : sumVals (seriesMul charge price) = 0 := sumVals_seriesMul_left_zero charge price hz
    simp [calcEnergyCostSavings, h0]


/-- Witness for claim C5's theorem at a concrete aligned window. -/
theorem percentage_metrics_spec_witness :
    (Breakdown.energy_cost_reduction
        { energy_cost_savings := 4, demand_charge_savings := some 0, other_savings := 0,
          total_savings := some 4, energy_cost_reduction := 50, peak_demand_reduction := 50 } =
      if 0 < sumVals (seriesMul [((0:ℕ), (2:ℚ))] [((0:ℕ), (4:ℚ))])
      then Breakdown.energy_cost_savings
          { energy_cost_savings := 4, demand_charge_savings := some 0, other_savings := 0,
            total_savings := some 4, energy_cost_reduction := 50, peak_demand_reduction := 50 } /
        sumVals (seriesMul [((0:ℕ), (2:ℚ))] [((0:ℕ), (4:ℚ))]) * 100 else 0) ∧
    ((∀ x ∈ [((0:ℕ), (2:ℚ))], x.2 = 0) →
      Breakdown.energy_cost_reduction
        { energy_cost_savings := 4, demand_charge_savings := some 0, other_savings := 0,
          total_savings := some 4, energy_cost_reduction := 50, peak_demand_reduction := 50 } = 0) ∧
    (Breakdown.peak_demand_reduction
        { energy_cost_savings := 4, demand_charge_savings := some 0, other_savings := 0,
          total_savings := some 4, energy_cost_reduction := 50, peak_demand_reduction := 50 } =
      if pPos (maxVals [((0:ℕ), (3:ℚ))])
      then (maxVals [((0:ℕ), (3:ℚ))]).getD 0 /
        ((maxVals [((0:ℕ), (3:ℚ))]).getD 0 + meanVals [((0:ℕ), (3:ℚ))]) * 100
      else 0) :=
  percentage_metrics_spec [(0, 2)] [(0, 3)] [(0, 4)] [] [] _
    rfl rfl (by decide) (by with_unfolding_all rfl)

/-- Claim C6: the dict returned by `_calculate_savings_breakdown` carries
none of the fields `arbitrage_opportunities`, `number_of_opportunities`,
`average_savings_per_opportunity`, although the repository's own test suite
(tests/test_savings_calculator.py lines 29-32) asserts their presence: the
code contradicts its tests, so the claimed fields are missing from every
breakdown. -/
theorem breakdown_missing_arbitrage_fields :
    "arbitrage_opportunities" ∉ breakdownDictKeys ∧
    "number_of_opportunities" ∉ breakdownDictKeys ∧
    "average_savings_per_opportunity" ∉ breakdownDictKeys := by
  decide

/-- Claim C7, counterexample: on a concrete input whose timestamp
intersection is empty, `demand_charge_savings` and `total_savings` are NaN
(modelled `none`), not 0 as claimed, because `max()` of the empty discharge
slice is NaN and the NaN propagates through the arithmetic. -/
theorem empty_intersection_nan :
    (calcSavingsBreakdown [(0, 1)] [(1, 2)] [(2, 3)] [] []).map
      (fun b => (b.demand_charge_savings, b.total_savings)) = .ok (none, none) := by
  with_unfolding_all rfl

/-- Demand-charge savings on an empty discharge slice is NaN for every
shape-valid rate list. -/
theorem calcDemandChargeSavings_empty (rates : List RateDict)
    (hwf : ∀ r ∈ rates, r.type.isSome ∧ r.value.isSome) :
    calcDemandChargeSavings [] rates = .ok none := by
  unfold calcDemandChargeSavings
  rw [peakRateLookup_wellFormed rates hwf]
  rfl

/-- Claim C7 as amended: when the timestamp intersection of the three input
series is empty, the breakdown computation (given shape-valid rates) does not
raise; `energy_cost_savings`, `other_savings` and both percentage metrics are
0, while `demand_charge_savings` and `total_savings` are NaN rather than 0. -/
theorem empty_intersection_breakdown (charge discharge price : Series)
    (rates : List RateDict) (periods : List PeriodDict)
    (hempty : commonIndex charge discharge price = [])
    (hwf : ∀ r ∈ rates, r.type.isSome ∧ r.value.isSome) :
    calcSavingsBreakdown charge discharge price rates periods =
      .ok { energy_cost_savings := 0, demand_charge_savings := none, other_savings := 0,
            total_savings := none, energy_cost_reduction := 0, peak_demand_reduction := 0 } := by
  simp only [calcSavingsBreakdown, hempty]
  have hr : ∀ s : Series, restrict s [] = [] := fun s => rfl
  rw [hr charge, hr discharge, hr price, calcDemandChargeSavings_empty rates hwf]
  norm_num [calcEnergyCostSavings, seriesMul, sumVals, pAdd, pPos, maxVals, calcOtherSavings]

/-- Witness for the amended claim C7 theorem at concrete disjoint series. -/
theorem empty_intersection_breakdown_witness :
    calcSavingsBreakdown [((0:ℕ), (1:ℚ))] [(1, 2)] [(2, 3)] [] [] =
      .ok { energy_cost_savings := 0, demand_charge_savings := none, other_savings := 0,
            total_savings := none, energy_cost_reduction := 0, peak_demand_reduction := 0 } :=
  empty_intersection_breakdown [(0, 1)] [(1, 2)] [(2, 3)] [] [] (by decide) (by decide)


/-- Claim C8, counterexample: a rate entry missing its `type` key makes the
engine raise a generic key-lookup error, `KeyError('type')` — there is no
`MalformedTariffData` condition anywhere in the code — and a rate entry
missing only its `value` key while its type is not `demand_peak` raises
nothing at all. -/
theorem malformed_rate_generic_keyerror :
    calcDemandChargeSavings [(0, 5)] [{ type := none, value := some 3 }] =
      .error (.keyError "type") ∧
    calcDemandChargeSavings [(0, 5)] [{ type := some "energy_peak", value := none }] =
      .ok (some 0) := by
  constructor
  · rfl
  · with_unfolding_all rfl

/-- The rate-scan generator only ever fails with a key-lookup error on
`type` or `value`. -/
theorem peakRateLookup_error : ∀ {rates : List RateDict} {e : PyError},
    peakRateLookup rates = .error e → e = .keyError "type" ∨ e = .keyError "value" := by
  intro rates
  induction rates with
  | nil => intro e h; exact absurd h (by simp [peakRateLookup])
  | cons r rs ih =>
    intro e h
    obtain ⟨rt, rv⟩ := r
    cases rt with
    | none =>
      simp [peakRateLookup] at h
      exact Or.inl h.symm
    | some t =>
      by_cases hdp : t = "demand_peak"
      · subst hdp
        cases rv with
        | none =>
          simp [peakRateLookup] at h
          exact Or.inr h.symm
        | some v => simp [peakRateLookup] at h
      · simp only [peakRateLookup, if_neg hdp] at h
        exact ih h

/-- Every failure of the demand-charge computation comes from the rate scan. -/
theorem calcDemandChargeSavings_error {discharge : Series} {rates : List RateDict} {e : PyError}
    (h : calcDemandChargeSavings discharge rates = .error e) :
    peakRateLookup rates = .error e := by
  unfold calcDemandChargeSavings at h
  split at h
  next e2 heq =>
    rw [heq]
    exact congrArg Except.error (Except.error.inj h)
  next v heq => exact absurd h (by simp)

/-- Every failure of the breakdown computation comes from the demand-charge
step. -/
theorem calcSavingsBreakdown_error {charge discharge price : Series}
    {rates : List RateDict} {periods : List PeriodDict} {e : PyError}
    (h : calcSavingsBreakdown charge discharge price rates periods = .error e) :
    calcDemandChargeSavings (restrict discharge (commonIndex charge discharge price)) rates =
      .error e := by
  simp only [calcSavingsBreakdown] at h
  split at h
  next e2 heq =>
    rw [heq]
    exact congrArg Except.error (Except.error.inj h)
  next v heq => exact absurd h (by simp)

/-- Claim C8 as amended: the breakdown engine never raises for empty or
degenerate series inputs — given rate entries that all carry their `type` and
`value` keys it always succeeds — and when it does raise, the condition is a
generic key-lookup error (Python `KeyError` on `type` or `value`), not a
`MalformedTariffData` condition. -/
theorem breakdown_error_spec (charge discharge price : Series)
    (rates : List RateDict) (periods : List PeriodDict) :
    ((∀ r ∈ rates, r.type.isSome ∧ r.value.isSome) →
      ∃ b, calcSavingsBreakdown charge discharge price rates periods = .ok b) ∧
    (∀ e, calcSavingsBreakdown charge discharge price rates periods = .error e →
      e = .keyError "type" ∨ e = .keyError "value") := by
  constructor
  · intro hwf
    cases hres : calcSavingsBreakdown charge discharge price rates periods with
    | ok b => exact ⟨b, rfl⟩
    | error e =>
      have h2 := calcDemandChargeSavings_error (calcSavingsBreakdown_error hres)
      rw [peakRateLookup_wellFormed rates hwf] at h2
      exact absurd h2 (by simp)
  · intro e he
    exact peakRateLookup_error (calcDemandChargeSavings_error (calcSavingsBreakdown_error he))

/-- Witness for the amended claim C8 theorem at a concrete input. -/
theorem breakdown_error_spec_witness :
    ((∀ r ∈ [({ type := some "demand_peak", value := some 2 } : RateDict)],
        r.type.isSome ∧ r.value.isSome) →
      ∃ b, calcSavingsBreakdown [((0:ℕ), (1:ℚ))] [(0, 1)] [(0, 1)]
        [{ type := some "demand_peak", value := some 2 }] [] = .ok b) ∧
    (∀ e, calcSavingsBreakdown [((0:ℕ), (1:ℚ))] [(0, 1)] [(0, 1)]
        [{ type := some "demand_peak", value := some 2 }] [] = .error e →
      e = .keyError "type" ∨ e = .keyError "value") :=
  breakdown_error_spec [(0, 1)] [(0, 1)] [(0, 1)]
    [{ type := some "demand_peak", value := some 2 }] []

/-- Claim C9: the monthly-summary end boundary for December 2024 is
2025-01-01T00:00:00 (year rollover) as claimed, but a data point timestamped
exactly at that end boundary is INCLUDED in December's summary (pandas
label-based slicing is end-inclusive), contradicting the claimed half-open
interval; the same point is also counted in January's summary, so the sample
is double-counted across the two months. -/
theorem monthly_slice_includes_end_boundary :
    monthEnd ⟨2024, 12, 15, 10, 30, 0⟩ = ⟨2025, 1, 1, 0, 0, 0⟩ ∧
    monthlyTotalCharge
      [(⟨2024, 12, 15, 0, 0, 0⟩, 3), (⟨2025, 1, 1, 0, 0, 0⟩, 5)] ⟨2024, 12, 15, 10, 30, 0⟩ = 8 ∧
    monthlyTotalCharge
      [(⟨2024, 12, 15, 0, 0, 0⟩, 3), (⟨2025, 1, 1, 0, 0, 0⟩, 5)] ⟨2025, 1, 20, 0, 0, 0⟩ = 5 := by
  refine ⟨rfl, ?_, ?_⟩ <;> with_unfolding_all rfl

/-- Claim C10: on a valid aligned input whose charging cost exceeds the
discharge revenue, with no `demand_peak` rate, the engine returns strictly
negative `energy_cost_savings` and strictly negative `total_savings`: no
non-negativity clamp is applied. -/
theorem negative_savings_no_clamp :
    (calcSavingsBreakdown [(0, 2)] [(0, 0)] [(0, 1)] [] []).map
      (fun b => (b.energy_cost_savings, b.total_savings)) = .ok (-2, some (-2)) ∧
    (-2 : ℚ) < 0 := by
  constructor
  · with_unfolding_all rfl
  · norm_num

end SavingsCalc
